import Mathlib

/-!
# Verification of the neighborhood-insights aggregation pipeline

Shallow embedding of `src/api/insights.py`: the HTTP handler, the
geocoding wrapper, the paginated proximity search, the nearest-of-type
search, the composite ranking key and the insight aggregator.

Provider calls (`googlemaps.Client.places_nearby`, `.geocode`) are
modelled as oracles: total functions from the call's arguments to an
`Except`-wrapped response, `Except.error` standing for a raised
exception.  Floats become `ℚ`; Python `None` becomes `Option.none`.
-/

/-- A raw result dict returned by the places provider.  `none` in a field
models a missing key (or a `null` value).  `types` is `Option` because the
code defaults it with `place.get("types", [])`. -/
structure RawPlace where
  name : Option String
  rating : Option ℚ
  user_ratings_total : Option ℕ
  types : Option (List String)
deriving DecidableEq

/-- One page of a `places_nearby` response: a result list and the optional
continuation token. -/
structure PageResponse where
  results : List RawPlace
  next_page_token : Option String
deriving DecidableEq

/-- The argument tuple of a `gmaps.places_nearby` call, as the Python code
passes it: `find_places_nearby` sends `(location, radius, type[, page_token])`,
`find_nearest_place` sends `(location, type, rank_by="distance")`. -/
structure GmapsCall where
  lat : ℚ
  lng : ℚ
  radius : Option ℕ
  ptype : String
  rank_by : Option String
  page_token : Option String
deriving DecidableEq

/-- The places-search oracle: what `gmaps.places_nearby` answers for each
argument tuple.  `Except.error ()` models a raised exception. -/
def Gmaps : Type := GmapsCall → Except Unit PageResponse

/-- A raw geocoding result (`geocode_result[0]` fields the code reads). -/
structure GeoRaw where
  lat : ℚ
  lng : ℚ
  formatted_address : String
deriving DecidableEq

/-- The geocoding oracle: what `gmaps.geocode(address, region=region)`
answers; `Except.error ()` models a raised exception. -/
def Geocoder : Type := String → String → Except Unit (List GeoRaw)

/-- An initialized `googlemaps.Client`: both oracles together. -/
structure Client where
  geocode : Geocoder
  places_nearby : Gmaps

/-- The normalized place dict built in `find_places_nearby`:
`{"name": ..., "rating": ..., "user_ratings_total": ..., "types": place.get("types", [])}`. -/
structure Place where
  name : Option String
  rating : Option ℚ
  user_ratings_total : Option ℕ
  types : List String
deriving DecidableEq

/-- Normalization of one raw provider result (the dict literal in
`find_places_nearby`'s final loop). -/
def normalizePlace (p : RawPlace) : Place :=
  { name := p.name
    rating := p.rating
    user_ratings_total := p.user_ratings_total
    types := p.types.getD [] }

/-- The key `safe_sort_key`: rating and review count with `None` replaced by zero. -/
def safe_sort_key (x : Place) : ℚ × ℕ :=
  (x.rating.getD 0, x.user_ratings_total.getD 0)

/-- Lexicographic order on sort keys: Python's tuple comparison
`(rating, count) <= (rating', count')`. -/
def keyLe (p q : ℚ × ℕ) : Prop :=
  p.1 < q.1 ∨ (p.1 = q.1 ∧ p.2 ≤ q.2)

instance : DecidableRel keyLe := fun p q => by
  unfold keyLe; infer_instance

/-- Relation `rankGe a b` holds when `a` may precede `b` in the descending sort:
`safe_sort_key a ≥ safe_sort_key b` lexicographically. -/
def rankGe (a b : Place) : Prop :=
  keyLe (safe_sort_key b) (safe_sort_key a)

instance : DecidableRel rankGe := fun a b => by
  unfold rankGe; infer_instance

instance : IsTotal Place rankGe where
  total a b := by
    unfold rankGe keyLe
    rcases lt_trichotomy (safe_sort_key a).1 (safe_sort_key b).1 with h | h | h
    · exact .inr (.inl h)
    · rcases le_total (safe_sort_key a).2 (safe_sort_key b).2 with h2 | h2
      · exact .inr (.inr ⟨h, h2⟩)
      · exact .inl (.inr ⟨h.symm, h2⟩)
    · exact .inl (.inl h)

instance : IsTrans Place rankGe where
  trans a b c hab hbc := by
    unfold rankGe keyLe at *
    rcases hab with h1 | ⟨e1, l1⟩ <;> rcases hbc with h2 | ⟨e2, l2⟩
    · exact .inl (h2.trans h1)
    · exact .inl (lt_of_le_of_lt (le_of_eq e2) h1)
    · exact .inl (lt_of_lt_of_le h2 (le_of_eq e1))
    · exact .inr ⟨e2.trans e1, l2.trans l1⟩

/-- Python's `sorted(l, key=safe_sort_key, reverse=True)`: the stable
descending sort by `safe_sort_key`, embedded as stable insertion sort with
the "may precede" relation `rankGe`. -/
def sortedRev (l : List Place) : List Place :=
  List.insertionSort rankGe l

/-- The pagination `while` loop of `find_places_nearby`, run after the
initial request.  `fuel` is `max_pages - pages` (iterations still allowed);
`resp` is the previous response.  Returns the raw results accumulated by the
remaining iterations (or the exception that aborted the loop) together with
the number of follow-up requests issued. -/
def pagesLoop (g : Gmaps) (lat lng : ℚ) (radius : ℕ) (ptype : String) :
    ℕ → PageResponse → Except Unit (List RawPlace) × ℕ
  | 0, _ => (.ok [], 0)
  | fuel + 1, resp =>
    match resp.next_page_token with
    | none => (.ok [], 0)
    | some tok =>
      match g ⟨lat, lng, some radius, ptype, none, some tok⟩ with
      | .error e => (.error e, 1)
      | .ok r =>
        ((pagesLoop g lat lng radius ptype fuel r).1.map (r.results ++ ·),
         (pagesLoop g lat lng radius ptype fuel r).2 + 1)

/-- Function `find_places_nearby(latitude, longitude, place_type, gmaps, radius,
max_pages)`: initial categorized proximity request, then up to
`max_pages - 1` continuation requests, normalization of the accumulated
results, and `[]` on any exception. -/
def find_places_nearby (g : Gmaps) (latitude longitude : ℚ) (place_type : String)
    (radius : ℕ) (max_pages : ℕ) : List Place :=
  match g ⟨latitude, longitude, some radius, place_type, none, none⟩ with
  | .error _ => []
  | .ok resp =>
    match (pagesLoop g latitude longitude radius place_type (max_pages - 1) resp).1 with
    | .error _ => []
    | .ok later => (resp.results ++ later).map normalizePlace

/-- Number of `places_nearby` requests issued by one `find_places_nearby`
call (the initial request plus the follow-ups of the pagination loop). -/
def fpn_requests (g : Gmaps) (latitude longitude : ℚ) (place_type : String)
    (radius : ℕ) (max_pages : ℕ) : ℕ :=
  match g ⟨latitude, longitude, some radius, place_type, none, none⟩ with
  | .error _ => 1
  | .ok resp => (pagesLoop g latitude longitude radius place_type (max_pages - 1) resp).2 + 1

/-- The raw accumulated result list (`all_places`) of `find_places_nearby`
before normalization; empty when an exception aborted the call. -/
def fpn_raw (g : Gmaps) (latitude longitude : ℚ) (place_type : String)
    (radius : ℕ) (max_pages : ℕ) : List RawPlace :=
  match g ⟨latitude, longitude, some radius, place_type, none, none⟩ with
  | .error _ => []
  | .ok resp =>
    match (pagesLoop g latitude longitude radius place_type (max_pages - 1) resp).1 with
    | .error _ => []
    | .ok later => resp.results ++ later

/-- The partial record `find_nearest_place` builds from the closest result:
`{"name": ..., "rating": ...}`. -/
structure NearestPlace where
  name : Option String
  rating : Option ℚ
deriving DecidableEq

/-- Function `find_nearest_place(latitude, longitude, place_type, gmaps)`: one
distance-ranked request, first result's name and rating, `None` on zero
results or any exception. -/
def find_nearest_place (g : Gmaps) (latitude longitude : ℚ) (place_type : String) :
    Option NearestPlace :=
  match g ⟨latitude, longitude, none, place_type, some "distance", none⟩ with
  | .error _ => none
  | .ok resp =>
    match resp.results with
    | [] => none
    | p :: _ => some ⟨p.name, p.rating⟩

/-- The geocoding result dict `geocode_address` returns on success. -/
structure GeoResult where
  lat : ℚ
  lng : ℚ
  formatted_address : String
  source : String
deriving DecidableEq

/-- Function `geocode_address(address, gmaps, region)`: first geocoding result's
location and formatted address, `None` on empty results or any exception. -/
def geocode_address (geo : Geocoder) (address : String) (region : String) :
    Option GeoResult :=
  match geo address region with
  | .error _ => none
  | .ok [] => none
  | .ok (r :: _) => some ⟨r.lat, r.lng, r.formatted_address, "google"⟩

/-- A plain category section: `{"count": ..., "top": [...]}`. -/
structure CatSection where
  count : ℕ
  top : List Place
deriving DecidableEq

/-- The hospitals section: `{"count": ..., "nearest": ..., "top": [...]}`.
The code stores `hospital_nearest.get("name")`, so `nearest` is a name
string (or `None`), not a place record. -/
structure HospitalSection where
  count : ℕ
  nearest : Option String
  top : List Place
deriving DecidableEq

/-- The subway section: `{"count": ..., "nearest": ..., "alternatives": [...]}`. -/
structure SubwaySection where
  count : ℕ
  nearest : Option String
  alternatives : List Place
deriving DecidableEq

/-- The `social_life` group of sections. -/
structure SocialLife where
  cafes : CatSection
  shopping_malls : CatSection
  parks : CatSection
  gyms : CatSection
deriving DecidableEq

/-- The `family_life` group of sections. -/
structure FamilyLife where
  schools : CatSection
  hospitals : HospitalSection
  pharmacies : CatSection
deriving DecidableEq

/-- The `transport` group of sections. -/
structure Transport where
  subway : SubwaySection
deriving DecidableEq

/-- The `summary.highlights` dict. -/
structure Highlights where
  cafes_top : List (Option String)
  schools_top : List (Option String)
  malls_top : List (Option String)
  nearest_hospital : Option String
  nearest_subway : Option String
deriving DecidableEq

/-- The `summary` dict: headline sentence plus highlights. -/
structure Summary where
  headline : String
  highlights : Highlights
deriving DecidableEq

/-- The successful insight report (`ok: True` shape). -/
structure SuccessReport where
  query : String
  address : String
  lat : ℚ
  lng : ℚ
  source : String
  social_life : SocialLife
  family_life : FamilyLife
  transport : Transport
  summary : Summary
deriving DecidableEq

/-- The value `get_neighborhood_insights` returns: either the `ok: False`
error dict (error message and original query) or the full report. -/
inductive Report where
  | failure (error : String) (query : String)
  | success (r : SuccessReport)
deriving DecidableEq

/-- The inner `summarize_list(lst, top)` helper: names of the first `top`
entries.  The normalized dicts always carry a `"name"` key (possibly
`None`), so `x.get("name", "")` returns that stored value. -/
def summarize_list (lst : List Place) (top : ℕ) : List (Option String) :=
  (lst.take top).map (·.name)

/-- The summary headline f-string. -/
def mkHeadline (formatted : String) (nCafes nParks nGyms nSchools nHospitals nMalls : ℕ) :
    String :=
  s!"{formatted}: {nCafes} cafes, {nParks} parks, {nGyms} gyms, {nSchools} schools, {nHospitals} hospitals, {nMalls} malls nearby."

/-- The section-assembly part of `get_neighborhood_insights` (source lines
127–204), as a function of the geocoding result, the eight category result
lists, and the two nearest-of-type results. -/
def assembleInsights (address : String) (geo : GeoResult)
    (cafes malls parks gyms schools hospitals pharmacies metros : List Place)
    (hospital_nearest metro_nearest : Option NearestPlace) : SuccessReport :=
  let formatted := geo.formatted_address
  let top_n := 5
  let cafes_sorted := sortedRev cafes
  let malls_filtered := malls.filter (fun m => decide ("shopping_mall" ∈ m.types))
  let malls_sorted := sortedRev malls_filtered
  let parks_sorted := sortedRev parks
  let gyms_sorted := sortedRev gyms
  let schools_sorted := sortedRev schools
  let hospitals_sorted := sortedRev hospitals
  { query := address
    address := formatted
    lat := geo.lat
    lng := geo.lng
    source := geo.source
    social_life :=
      { cafes := ⟨cafes.length, cafes_sorted.take top_n⟩
        shopping_malls := ⟨malls_filtered.length, malls_sorted.take top_n⟩
        parks := ⟨parks.length, parks_sorted.take top_n⟩
        gyms := ⟨gyms.length, gyms_sorted.take top_n⟩ }
    family_life :=
      { schools := ⟨schools.length, schools_sorted.take top_n⟩
        hospitals := ⟨hospitals.length, hospital_nearest.bind (·.name),
          hospitals_sorted.take top_n⟩
        pharmacies := ⟨pharmacies.length, pharmacies.take top_n⟩ }
    transport :=
      { subway := ⟨metros.length, metro_nearest.bind (·.name), metros.take top_n⟩ }
    summary :=
      { headline := mkHeadline formatted cafes.length parks.length gyms.length
          schools.length hospitals.length malls_filtered.length
        highlights :=
          { cafes_top := summarize_list cafes_sorted 3
            schools_top := summarize_list schools_sorted 3
            malls_top := summarize_list malls_sorted 3
            nearest_hospital := hospital_nearest.bind (·.name)
            nearest_subway := metro_nearest.bind (·.name) } } }

/-- Function `get_neighborhood_insights(address, api_key)`: geocode with region
`"tr"`; on failure return the error dict; on success run the eight
category proximity searches with the `default_cfg` radii, the two
nearest-of-type searches, and assemble the report. -/
def get_neighborhood_insights (client : Client) (address : String) : Report :=
  match geocode_address client.geocode address "tr" with
  | none => .failure ("Could not geocode the address: " ++ address) address
  | some geo =>
    let lat := geo.lat
    let lng := geo.lng
    .success (assembleInsights address geo
      (find_places_nearby client.places_nearby lat lng "cafe" 1000 2)
      (find_places_nearby client.places_nearby lat lng "shopping_mall" 5000 2)
      (find_places_nearby client.places_nearby lat lng "park" 1500 2)
      (find_places_nearby client.places_nearby lat lng "gym" 2000 2)
      (find_places_nearby client.places_nearby lat lng "school" 8000 2)
      (find_places_nearby client.places_nearby lat lng "hospital" 5000 2)
      (find_places_nearby client.places_nearby lat lng "pharmacy" 2000 2)
      (find_places_nearby client.places_nearby lat lng "subway_station" 2000 2)
      (find_nearest_place client.places_nearby lat lng "hospital")
      (find_nearest_place client.places_nearby lat lng "subway_station"))

/-- Number of provider operations (`find_places_nearby` requests plus
`find_nearest_place` requests) `get_neighborhood_insights` performs;
`0` when geocoding fails. -/
def insights_provider_calls (client : Client) (address : String) : ℕ :=
  match geocode_address client.geocode address "tr" with
  | none => 0
  | some geo =>
    let lat := geo.lat
    let lng := geo.lng
    fpn_requests client.places_nearby lat lng "cafe" 1000 2 +
    fpn_requests client.places_nearby lat lng "shopping_mall" 5000 2 +
    fpn_requests client.places_nearby lat lng "park" 1500 2 +
    fpn_requests client.places_nearby lat lng "gym" 2000 2 +
    fpn_requests client.places_nearby lat lng "school" 8000 2 +
    fpn_requests client.places_nearby lat lng "hospital" 5000 2 +
    fpn_requests client.places_nearby lat lng "pharmacy" 2000 2 +
    fpn_requests client.places_nearby lat lng "subway_station" 2000 2 + 2

/-- The parsed JSON body of a request (`request.get_json()` result); only
the `address` field is read, `none` modelling a missing key. -/
structure ReqData where
  address : Option String
deriving DecidableEq

/-- An inbound request: its method and the outcome of `get_json()`
(`Except.error` models a raised parse exception). -/
structure Request where
  method : String
  body : Except Unit ReqData

/-- The JSON body of a handler response. -/
inductive RespBody where
  | okTrue
  | err (msg : String)
  | insight (r : Report)
deriving DecidableEq

/-- Function `handler(request)`: CORS pre-flight, method check, API-key check
(`if not api_key` is falsy for a missing or empty key), JSON parse,
address check (`if not address` is falsy for a missing or empty address),
then the main logic.  Returns (statusCode, body). -/
def handler (api_key : Option String) (client : Client) (req : Request) :
    ℕ × RespBody :=
  if req.method = "OPTIONS" then (200, .okTrue)
  else if req.method ≠ "POST" then (405, .err "Method not allowed. Use POST.")
  else if api_key = none ∨ api_key = some "" then
    (500, .err "GOOGLE_MAPS_API_KEY not set")
  else
    match req.body with
    | .error _ => (400, .err "Invalid JSON")
    | .ok data =>
      match data.address with
      | none => (400, .err "Address is required")
      | some a =>
        if a = "" then (400, .err "Address is required")
        else (200, .insight (get_neighborhood_insights client a))

/-- Number of collaborator operations (one geocoding call plus the provider
operations of the aggregation) the handler performs for a request; `0` on
every early-return path. -/
def handler_calls (api_key : Option String) (client : Client) (req : Request) : ℕ :=
  if req.method = "OPTIONS" then 0
  else if req.method ≠ "POST" then 0
  else if api_key = none ∨ api_key = some "" then 0
  else
    match req.body with
    | .error _ => 0
    | .ok data =>
      match data.address with
      | none => 0
      | some a =>
        if a = "" then 0
        else 1 + insights_provider_calls client a

/-- The eight amenity categories of `default_cfg`. -/
inductive Cat where
  | cafe | shopping_mall | park | gym | school | hospital | pharmacy | subway_station
deriving DecidableEq, Fintype

/-- The `type` string the code passes to the provider for each category. -/
def Cat.ptype : Cat → String
  | .cafe => "cafe"
  | .shopping_mall => "shopping_mall"
  | .park => "park"
  | .gym => "gym"
  | .school => "school"
  | .hospital => "hospital"
  | .pharmacy => "pharmacy"
  | .subway_station => "subway_station"

/-- The `default_cfg` search radius for each category. -/
def Cat.radius : Cat → ℕ
  | .cafe => 1000
  | .shopping_mall => 5000
  | .park => 1500
  | .gym => 2000
  | .school => 8000
  | .hospital => 5000
  | .pharmacy => 2000
  | .subway_station => 2000

/-- A uniform view of one category's section in a report: its count, its
place list (`top`, or `alternatives` for subway), and its `nearest` field
(`none` for the categories whose section has no such key). -/
def sectionView (r : SuccessReport) : Cat → ℕ × List Place × Option String
  | .cafe => (r.social_life.cafes.count, r.social_life.cafes.top, none)
  | .shopping_mall =>
      (r.social_life.shopping_malls.count, r.social_life.shopping_malls.top, none)
  | .park => (r.social_life.parks.count, r.social_life.parks.top, none)
  | .gym => (r.social_life.gyms.count, r.social_life.gyms.top, none)
  | .school => (r.family_life.schools.count, r.family_life.schools.top, none)
  | .hospital =>
      (r.family_life.hospitals.count, r.family_life.hospitals.top,
        r.family_life.hospitals.nearest)
  | .pharmacy => (r.family_life.pharmacies.count, r.family_life.pharmacies.top, none)
  | .subway_station =>
      (r.transport.subway.count, r.transport.subway.alternatives,
        r.transport.subway.nearest)

/-- Shorthand for `find_places_nearby` at the arguments `get_neighborhood_insights`
passes for category `c`. -/
def catPlaces (g : Gmaps) (lat lng : ℚ) (c : Cat) : List Place :=
  find_places_nearby g lat lng c.ptype c.radius 2

/-! ### Helper lemmas -/

theorem keyLe_refl (p : ℚ × ℕ) : keyLe p p := .inr ⟨rfl, le_refl _⟩

theorem key_ne_of_not_rankGe {a b : Place} (h : ¬ rankGe a b) :
    safe_sort_key a ≠ safe_sort_key b := by
  intro he
  exact h (by unfold rankGe; rw [he]; exact keyLe_refl _)

/-- Filter-stability of a single ordered insertion: inserting `a` commutes
with filtering by any sort-key value. -/
theorem filter_key_orderedInsert (a : Place) (l : List Place) (k : ℚ × ℕ) :
    (List.orderedInsert rankGe a l).filter (fun x => decide (safe_sort_key x = k)) =
      if safe_sort_key a = k then
        a :: l.filter (fun x => decide (safe_sort_key x = k))
      else l.filter (fun x => decide (safe_sort_key x = k)) := by
  induction l with
  | nil => simp [List.filter]; split <;> simp_all
  | cons b l ih =>
    by_cases hab : rankGe a b
    · rw [List.orderedInsert_of_le _ _ hab]
      simp only [List.filter]
      split <;> simp_all
    · have hne : safe_sort_key a ≠ safe_sort_key b := key_ne_of_not_rankGe hab
      simp only [List.orderedInsert, if_neg hab, List.filter, ih]
      by_cases hbk : safe_sort_key b = k
      · have hak : safe_sort_key a ≠ k := fun h => hne (h.trans hbk.symm)
        simp [hbk, hak]
      · by_cases hak : safe_sort_key a = k <;> simp [hbk, hak]

/-- Filter-stability of the whole descending sort. -/
theorem filter_key_sortedRev (l : List Place) (k : ℚ × ℕ) :
    (sortedRev l).filter (fun x => decide (safe_sort_key x = k)) =
      l.filter (fun x => decide (safe_sort_key x = k)) := by
  induction l with
  | nil => rfl
  | cons a l ih =>
    show (List.orderedInsert rankGe a (sortedRev l)).filter _ = _
    rw [filter_key_orderedInsert]
    simp only [List.filter, ih]
    split <;> simp_all

/-! ### C1 -/

/-- C1: the Composite Ranker (`sorted(..., key=safe_sort_key, reverse=True)`)
returns a permutation of its input that is ordered descending by the key
(rating-or-0, rating_count-or-0) and is stable: the elements carrying any
fixed key value appear in the same order as in the input. -/
theorem composite_ranker_sorted_descending_stable (l : List Place) :
    List.Perm (sortedRev l) l ∧
    List.Sorted rankGe (sortedRev l) ∧
    ∀ k : ℚ × ℕ,
      (sortedRev l).filter (fun x => decide (safe_sort_key x = k)) =
        l.filter (fun x => decide (safe_sort_key x = k)) :=
  ⟨List.perm_insertionSort rankGe l, List.sorted_insertionSort rankGe l,
    filter_key_sortedRev l⟩

/-! ### C3 -/

theorem pagesLoop_snd_le (g : Gmaps) (lat lng : ℚ) (radius : ℕ) (ptype : String) :
    ∀ (fuel : ℕ) (resp : PageResponse),
      (pagesLoop g lat lng radius ptype fuel resp).2 ≤ fuel := by
  intro fuel
  induction fuel with
  | zero => intro resp; simp [pagesLoop]
  | succ n ih =>
    intro resp
    simp only [pagesLoop]
    cases hresp : resp.next_page_token with
    | none => simp
    | some tok =>
      simp only
      cases hg : g ⟨lat, lng, some radius, ptype, none, some tok⟩ with
      | error e => simp
      | ok r =>
        simp only
        have := ih r
        omega

theorem pagesLoop_fst_length (g : Gmaps) (lat lng : ℚ) (radius : ℕ) (ptype : String)
    (P : ℕ) (hP : ∀ call resp, g call = .ok resp → resp.results.length ≤ P) :
    ∀ (fuel : ℕ) (resp : PageResponse) (later : List RawPlace),
      (pagesLoop g lat lng radius ptype fuel resp).1 = .ok later →
      later.length ≤ fuel * P := by
  intro fuel
  induction fuel with
  | zero =>
    intro resp later h
    simp only [pagesLoop] at h
    cases h
    simp
  | succ n ih =>
    intro resp later h
    simp only [pagesLoop] at h
    cases hresp : resp.next_page_token with
    | none =>
      simp only [hresp] at h
      cases h
      simp
    | some tok =>
      simp only [hresp] at h
      cases hg : g ⟨lat, lng, some radius, ptype, none, some tok⟩ with
      | error e => simp [hg] at h
      | ok r =>
        simp only [hg] at h
        cases hrec : (pagesLoop g lat lng radius ptype n r).1 with
        | error e => simp [hrec, Except.map] at h
        | ok l2 =>
          rw [hrec] at h
          simp only [Except.map] at h
          cases h
          have h1 := hP _ _ hg
          have h2 := ih r l2 hrec
          simp only [List.length_append, Nat.succ_mul]
          omega

/-- C3: for every provider behavior, `find_places_nearby` issues at most
`max_pages` requests; its output is bounded by `max_pages` pages' worth of
results; and the follow-up request is issued only when the previous
response carried a `next_page_token` and the page cap allows another page
(no continuation token, or a cap of one page, means exactly one request). -/
theorem pagination_bounded_by_max_pages (g : Gmaps) (lat lng : ℚ) (ptype : String)
    (radius max_pages : ℕ) (hmp : 1 ≤ max_pages) :
    fpn_requests g lat lng ptype radius max_pages ≤ max_pages ∧
    (∀ P : ℕ, (∀ call resp, g call = .ok resp → resp.results.length ≤ P) →
      (find_places_nearby g lat lng ptype radius max_pages).length ≤ max_pages * P) ∧
    (∀ resp, g ⟨lat, lng, some radius, ptype, none, none⟩ = .ok resp →
      (resp.next_page_token = none ∨ max_pages = 1) →
      fpn_requests g lat lng ptype radius max_pages = 1) := by
  refine ⟨?_, ?_, ?_⟩
  · unfold fpn_requests
    cases hg : g ⟨lat, lng, some radius, ptype, none, none⟩ with
    | error e => exact hmp
    | ok resp =>
      show (pagesLoop g lat lng radius ptype (max_pages - 1) resp).2 + 1 ≤ max_pages
      have := pagesLoop_snd_le g lat lng radius ptype (max_pages - 1) resp
      omega
  · intro P hP
    unfold find_places_nearby
    cases hg : g ⟨lat, lng, some radius, ptype, none, none⟩ with
    | error e => simp
    | ok resp =>
      cases hl : (pagesLoop g lat lng radius ptype (max_pages - 1) resp).1 with
      | error e => simp [hl]
      | ok later =>
        simp only [hl]
        have h1 := hP _ _ hg
        have h2 := pagesLoop_fst_length g lat lng radius ptype P hP (max_pages - 1)
          resp later hl
        obtain ⟨m, hm⟩ : ∃ m, max_pages = m + 1 := ⟨max_pages - 1, by omega⟩
        subst hm
        simp only [Nat.add_sub_cancel] at h2
        calc ((resp.results ++ later).map normalizePlace).length
            = resp.results.length + later.length := by
              simp [List.length_map, List.length_append]
          _ ≤ P + m * P := Nat.add_le_add h1 h2
          _ = (m + 1) * P := by ring
  · intro resp hg htok
    unfold fpn_requests
    rw [hg]
    show (pagesLoop g lat lng radius ptype (max_pages - 1) resp).2 + 1 = 1
    rcases htok with htok | hmp1
    · have hloop : pagesLoop g lat lng radius ptype (max_pages - 1) resp =
          (.ok [], 0) := by
        cases hf : max_pages - 1 with
        | zero => rfl
        | succ n => simp [pagesLoop, htok]
      rw [hloop]
    · rw [hmp1]
      rfl

/-! ### C4 -/

/-- C4: when geocoding yields no result, `get_neighborhood_insights`
returns the error dict whose message contains the address and whose
`query` is the original address, and performs zero provider operations
(no `find_places_nearby`, no `find_nearest_place`). -/
theorem geocode_failure_no_category_queries (client : Client) (address : String)
    (h : geocode_address client.geocode address "tr" = none) :
    get_neighborhood_insights client address =
      .failure ("Could not geocode the address: " ++ address) address ∧
    (∃ pre post, "Could not geocode the address: " ++ address =
      pre ++ address ++ post) ∧
    insights_provider_calls client address = 0 := by
  refine ⟨?_, ⟨"Could not geocode the address: ", "", by simp⟩, ?_⟩
  · unfold get_neighborhood_insights
    rw [h]
  · unfold insights_provider_calls
    rw [h]

/-- A provider that always answers one result and always offers another
page: the adversarial continuation behavior of C3. -/
def gAlwaysMore : Gmaps := fun _ =>
  .ok ⟨[⟨some "A", none, none, none⟩], some "tok"⟩

/-- Witness for C3 at a concrete adversarial provider and the default
`max_pages = 2`. -/
theorem pagination_bounded_witness :
    fpn_requests gAlwaysMore 0 0 "cafe" 1000 2 ≤ 2 ∧
    (∀ P : ℕ, (∀ call resp, gAlwaysMore call = .ok resp → resp.results.length ≤ P) →
      (find_places_nearby gAlwaysMore 0 0 "cafe" 1000 2).length ≤ 2 * P) ∧
    (∀ resp, gAlwaysMore ⟨0, 0, some 1000, "cafe", none, none⟩ = .ok resp →
      (resp.next_page_token = none ∨ 2 = 1) →
      fpn_requests gAlwaysMore 0 0 "cafe" 1000 2 = 1) :=
  pagination_bounded_by_max_pages gAlwaysMore 0 0 "cafe" 1000 2 (by decide)

/-- A client whose geocoder returns an empty result list. -/
def clientGeoEmpty : Client :=
  { geocode := fun _ _ => .ok []
    places_nearby := fun _ => .ok ⟨[], none⟩ }

/-- Witness for C4 at a concrete non-geocodable address. -/
theorem geocode_failure_witness :
    get_neighborhood_insights clientGeoEmpty "Nowhere Street" =
      .failure ("Could not geocode the address: " ++ "Nowhere Street")
        "Nowhere Street" ∧
    (∃ pre post, "Could not geocode the address: " ++ "Nowhere Street" =
      pre ++ "Nowhere Street" ++ post) ∧
    insights_provider_calls clientGeoEmpty "Nowhere Street" = 0 :=
  geocode_failure_no_category_queries clientGeoEmpty "Nowhere Street" rfl

/-! ### Congruence of the search operations in the provider oracle -/

theorem pagesLoop_congr (g g' : Gmaps) (lat lng : ℚ) (radius : ℕ) (ptype : String)
    (h : ∀ tok : String, g ⟨lat, lng, some radius, ptype, none, some tok⟩ =
      g' ⟨lat, lng, some radius, ptype, none, some tok⟩) :
    ∀ (fuel : ℕ) (resp : PageResponse),
      pagesLoop g lat lng radius ptype fuel resp =
        pagesLoop g' lat lng radius ptype fuel resp := by
  intro fuel
  induction fuel with
  | zero => intro resp; rfl
  | succ n ih =>
    intro resp
    simp only [pagesLoop]
    cases hresp : resp.next_page_token with
    | none => rfl
    | some tok =>
      simp only [h tok]
      cases hg : g' ⟨lat, lng, some radius, ptype, none, some tok⟩ with
      | error e => rfl
      | ok r => simp [ih r]

theorem find_places_nearby_congr (g g' : Gmaps) (lat lng : ℚ) (ptype : String)
    (radius max_pages : ℕ)
    (h : ∀ tok : Option String, g ⟨lat, lng, some radius, ptype, none, tok⟩ =
      g' ⟨lat, lng, some radius, ptype, none, tok⟩) :
    find_places_nearby g lat lng ptype radius max_pages =
      find_places_nearby g' lat lng ptype radius max_pages := by
  unfold find_places_nearby
  rw [h none]
  cases hg : g' ⟨lat, lng, some radius, ptype, none, none⟩ with
  | error e => rfl
  | ok resp =>
    simp only [pagesLoop_congr g g' lat lng radius ptype (fun tok => h (some tok))]

theorem find_nearest_place_congr (g g' : Gmaps) (lat lng : ℚ) (ptype : String)
    (h : g ⟨lat, lng, none, ptype, some "distance", none⟩ =
      g' ⟨lat, lng, none, ptype, some "distance", none⟩) :
    find_nearest_place g lat lng ptype = find_nearest_place g' lat lng ptype := by
  unfold find_nearest_place
  rw [h]

/-- On a successful geocode, `get_neighborhood_insights` is the assembly of
the eight category search results and the two nearest-of-type results. -/
theorem insights_success (client : Client) (address : String) (geo : GeoResult)
    (h : geocode_address client.geocode address "tr" = some geo) :
    get_neighborhood_insights client address =
      .success (assembleInsights address geo
        (catPlaces client.places_nearby geo.lat geo.lng .cafe)
        (catPlaces client.places_nearby geo.lat geo.lng .shopping_mall)
        (catPlaces client.places_nearby geo.lat geo.lng .park)
        (catPlaces client.places_nearby geo.lat geo.lng .gym)
        (catPlaces client.places_nearby geo.lat geo.lng .school)
        (catPlaces client.places_nearby geo.lat geo.lng .hospital)
        (catPlaces client.places_nearby geo.lat geo.lng .pharmacy)
        (catPlaces client.places_nearby geo.lat geo.lng .subway_station)
        (find_nearest_place client.places_nearby geo.lat geo.lng "hospital")
        (find_nearest_place client.places_nearby geo.lat geo.lng "subway_station")) := by
  unfold get_neighborhood_insights
  rw [h]
  rfl

/-- Distinct categories use distinct provider `type` strings. -/
theorem cat_ptype_inj : ∀ (a b : Cat), a.ptype = b.ptype → a = b := by
  decide

/-! ### C2 -/

/-- C2: if the provider raises on one category's proximity queries (and is
unchanged on every other call), `find_places_nearby` absorbs the error into
an empty list, so that category's section has count 0 and an empty place
list, while every other category's section is exactly what it is without
the failure. -/
theorem provider_error_isolated_to_category (c : Cat) (g g' : Client)
    (address : String) (geo : GeoResult)
    (hgeo : g.geocode address "tr" = g'.geocode address "tr")
    (hsucc : geocode_address g.geocode address "tr" = some geo)
    (hagree : ∀ call : GmapsCall, ¬(call.ptype = c.ptype ∧ call.rank_by = none) →
      g.places_nearby call = g'.places_nearby call)
    (hfail : ∀ call : GmapsCall, call.ptype = c.ptype → call.rank_by = none →
      g'.places_nearby call = .error ()) :
    ∃ r r' : SuccessReport,
      get_neighborhood_insights g address = .success r ∧
      get_neighborhood_insights g' address = .success r' ∧
      (sectionView r' c).1 = 0 ∧
      (sectionView r' c).2.1 = [] ∧
      ∀ c' : Cat, c' ≠ c → sectionView r' c' = sectionView r c' := by
  have hsucc' : geocode_address g'.geocode address "tr" = some geo := by
    unfold geocode_address at hsucc ⊢
    rw [← hgeo]
    exact hsucc
  have hfailc : catPlaces g'.places_nearby geo.lat geo.lng c = [] := by
    unfold catPlaces find_places_nearby
    rw [hfail ⟨geo.lat, geo.lng, some c.radius, c.ptype, none, none⟩ rfl rfl]
  have hsame : ∀ cc : Cat, cc ≠ c →
      catPlaces g'.places_nearby geo.lat geo.lng cc =
        catPlaces g.places_nearby geo.lat geo.lng cc := by
    intro cc hne
    exact (find_places_nearby_congr g.places_nearby g'.places_nearby geo.lat geo.lng
      cc.ptype cc.radius 2
      (fun tok => hagree ⟨geo.lat, geo.lng, some cc.radius, cc.ptype, none, tok⟩
        (fun hcontr => hne (cat_ptype_inj cc c hcontr.1)))).symm
  have hnh : find_nearest_place g'.places_nearby geo.lat geo.lng "hospital" =
      find_nearest_place g.places_nearby geo.lat geo.lng "hospital" :=
    (find_nearest_place_congr _ _ _ _ _
      (hagree ⟨geo.lat, geo.lng, none, "hospital", some "distance", none⟩
        (fun hcontr => Option.noConfusion hcontr.2))).symm
  have hns : find_nearest_place g'.places_nearby geo.lat geo.lng "subway_station" =
      find_nearest_place g.places_nearby geo.lat geo.lng "subway_station" :=
    (find_nearest_place_congr _ _ _ _ _
      (hagree ⟨geo.lat, geo.lng, none, "subway_station", some "distance", none⟩
        (fun hcontr => Option.noConfusion hcontr.2))).symm
  refine ⟨_, _, insights_success g address geo hsucc,
    insights_success g' address geo hsucc', ?_, ?_, ?_⟩
  · cases c <;>
      simp [sectionView, assembleInsights, hfailc, sortedRev, List.insertionSort]
  · cases c <;>
      simp [sectionView, assembleInsights, hfailc, sortedRev, List.insertionSort]
  · intro c' hne
    have hv := hsame c' hne
    cases c' <;> simp only [sectionView, assembleInsights, hv, hnh, hns]

/-! ### C5 -/

/-- C5: every entry of the shopping_malls section's `top` carries the
literal tag `"shopping_mall"`, and the section's `count` is the number of
provider records carrying that tag (records lacking it are excluded from
both `top` and `count`). -/
theorem shopping_mall_tag_filter (client : Client) (address : String)
    (geo : GeoResult)
    (hsucc : geocode_address client.geocode address "tr" = some geo) :
    ∃ r : SuccessReport,
      get_neighborhood_insights client address = .success r ∧
      r.social_life.shopping_malls.count =
        ((catPlaces client.places_nearby geo.lat geo.lng .shopping_mall).filter
          (fun m => decide ("shopping_mall" ∈ m.types))).length ∧
      r.social_life.shopping_malls.top =
        (sortedRev ((catPlaces client.places_nearby geo.lat geo.lng
            .shopping_mall).filter
          (fun m => decide ("shopping_mall" ∈ m.types)))).take 5 ∧
      ∀ m ∈ r.social_life.shopping_malls.top, "shopping_mall" ∈ m.types := by
  refine ⟨_, insights_success client address geo hsucc, rfl, rfl, ?_⟩
  intro m hm
  have h1 : m ∈ sortedRev ((catPlaces client.places_nearby geo.lat geo.lng
      .shopping_mall).filter (fun m => decide ("shopping_mall" ∈ m.types))) :=
    List.mem_of_mem_take hm
  have h2 := (List.perm_insertionSort rankGe _).mem_iff.mp h1
  have h3 := List.of_mem_filter h2
  simp only [decide_eq_true_eq] at h3
  exact h3

/-! ### C6 -/

/-- C6: in a successful report every section's `count` is the size of the
(post-filter, for shopping_mall) result list before top-N truncation, and
every truncated list has length at most `top_n = 5`. -/
theorem count_is_pre_truncation_size (client : Client) (address : String)
    (geo : GeoResult)
    (hsucc : geocode_address client.geocode address "tr" = some geo) :
    ∃ r : SuccessReport,
      get_neighborhood_insights client address = .success r ∧
      (r.social_life.cafes.count =
          (catPlaces client.places_nearby geo.lat geo.lng .cafe).length ∧
        r.social_life.cafes.top.length ≤ 5) ∧
      (r.social_life.shopping_malls.count =
          ((catPlaces client.places_nearby geo.lat geo.lng .shopping_mall).filter
            (fun m => decide ("shopping_mall" ∈ m.types))).length ∧
        r.social_life.shopping_malls.top.length ≤ 5) ∧
      (r.social_life.parks.count =
          (catPlaces client.places_nearby geo.lat geo.lng .park).length ∧
        r.social_life.parks.top.length ≤ 5) ∧
      (r.social_life.gyms.count =
          (catPlaces client.places_nearby geo.lat geo.lng .gym).length ∧
        r.social_life.gyms.top.length ≤ 5) ∧
      (r.family_life.schools.count =
          (catPlaces client.places_nearby geo.lat geo.lng .school).length ∧
        r.family_life.schools.top.length ≤ 5) ∧
      (r.family_life.hospitals.count =
          (catPlaces client.places_nearby geo.lat geo.lng .hospital).length ∧
        r.family_life.hospitals.top.length ≤ 5) ∧
      (r.family_life.pharmacies.count =
          (catPlaces client.places_nearby geo.lat geo.lng .pharmacy).length ∧
        r.family_life.pharmacies.top.length ≤ 5) ∧
      (r.transport.subway.count =
          (catPlaces client.places_nearby geo.lat geo.lng .subway_station).length ∧
        r.transport.subway.alternatives.length ≤ 5) := by
  exact ⟨_, insights_success client address geo hsucc,
    ⟨rfl, List.length_take_le _ _⟩, ⟨rfl, List.length_take_le _ _⟩,
    ⟨rfl, List.length_take_le _ _⟩, ⟨rfl, List.length_take_le _ _⟩,
    ⟨rfl, List.length_take_le _ _⟩, ⟨rfl, List.length_take_le _ _⟩,
    ⟨rfl, List.length_take_le _ _⟩, ⟨rfl, List.length_take_le _ _⟩⟩

/-! ### C7 -/

/-- A client whose provider reports one distance-ranked hospital named
"City Hospital" with the given rating, and nothing else. -/
def hospClient (rating : ℚ) : Client :=
  { geocode := fun _ _ => .ok [⟨39, 32, "Some Address"⟩]
    places_nearby := fun call =>
      if call.rank_by = some "distance" ∧ call.ptype = "hospital" then
        .ok ⟨[⟨some "City Hospital", some rating, some 120, some ["hospital"]⟩], none⟩
      else .ok ⟨[], none⟩ }

/-- Counterexample to C7: two providers whose single closest hospital
records differ (rating 4 vs rating 1) produce *identical* reports — the
hospitals section's `nearest` field therefore cannot be the PlaceRecord of
the closest place; the code stores only its name. -/
theorem nearest_field_not_the_record :
    find_nearest_place (hospClient 4).places_nearby 39 32 "hospital" ≠
      find_nearest_place (hospClient 1).places_nearby 39 32 "hospital" ∧
    get_neighborhood_insights (hospClient 4) "X" =
      get_neighborhood_insights (hospClient 1) "X" := by
  constructor
  · decide
  · rfl

/-- C7 (amended): the hospitals and subway sections' optional `nearest`
field carries the *name* of the single closest place of that type (or
`None` when the nearest-of-type search returns nothing or the place is
unnamed), not the full place record. -/
theorem nearest_field_is_name (client : Client) (address : String)
    (geo : GeoResult)
    (hsucc : geocode_address client.geocode address "tr" = some geo) :
    ∃ r : SuccessReport,
      get_neighborhood_insights client address = .success r ∧
      r.family_life.hospitals.nearest =
        (find_nearest_place client.places_nearby geo.lat geo.lng
          "hospital").bind (·.name) ∧
      r.transport.subway.nearest =
        (find_nearest_place client.places_nearby geo.lat geo.lng
          "subway_station").bind (·.name) :=
  ⟨_, insights_success client address geo hsucc, rfl, rfl⟩

/-! ### C8 -/

theorem find_places_nearby_eq_map (g : Gmaps) (lat lng : ℚ) (ptype : String)
    (radius max_pages : ℕ) :
    find_places_nearby g lat lng ptype radius max_pages =
      (fpn_raw g lat lng ptype radius max_pages).map normalizePlace := by
  unfold find_places_nearby fpn_raw
  cases hg : g ⟨lat, lng, some radius, ptype, none, none⟩ with
  | error e => rfl
  | ok resp =>
    cases hl : (pagesLoop g lat lng radius ptype (max_pages - 1) resp).1 with
    | error e => simp [hl]
    | ok later => simp [hl]

theorem mem_catPlaces_raw {g : Gmaps} {lat lng : ℚ} {c : Cat} {x : Place}
    (h : x ∈ catPlaces g lat lng c) :
    ∃ p ∈ fpn_raw g lat lng c.ptype c.radius 2,
      x = normalizePlace p ∧ x.rating = p.rating ∧
      x.user_ratings_total = p.user_ratings_total := by
  unfold catPlaces at h
  rw [find_places_nearby_eq_map] at h
  obtain ⟨p, hp, hpx⟩ := List.mem_map.mp h
  subst hpx
  exact ⟨p, hp, rfl, rfl, rfl⟩

/-- C8: every record in a report's top (or alternatives) list is the
normalization of a raw provider result that preserves an absent rating or
rating_count as absent (never overwritten with 0), while the sort key used
for ranking treats those absent values as zero. -/
theorem absent_rating_reported_absent (client : Client) (address : String)
    (geo : GeoResult) (c : Cat)
    (hsucc : geocode_address client.geocode address "tr" = some geo) :
    ∃ r : SuccessReport,
      get_neighborhood_insights client address = .success r ∧
      ∀ x ∈ (sectionView r c).2.1,
        (∃ p ∈ fpn_raw client.places_nearby geo.lat geo.lng c.ptype c.radius 2,
          x = normalizePlace p ∧ x.rating = p.rating ∧
          x.user_ratings_total = p.user_ratings_total) ∧
        safe_sort_key x = (x.rating.getD 0, x.user_ratings_total.getD 0) := by
  refine ⟨_, insights_success client address geo hsucc, ?_⟩
  intro x hx
  refine ⟨mem_catPlaces_raw ?_, rfl⟩
  cases c with
  | cafe =>
    simp only [sectionView, assembleInsights] at hx
    exact (List.perm_insertionSort rankGe _).mem_iff.mp (List.mem_of_mem_take hx)
  | shopping_mall =>
    simp only [sectionView, assembleInsights] at hx
    exact List.mem_of_mem_filter
      ((List.perm_insertionSort rankGe _).mem_iff.mp (List.mem_of_mem_take hx))
  | park =>
    simp only [sectionView, assembleInsights] at hx
    exact (List.perm_insertionSort rankGe _).mem_iff.mp (List.mem_of_mem_take hx)
  | gym =>
    simp only [sectionView, assembleInsights] at hx
    exact (List.perm_insertionSort rankGe _).mem_iff.mp (List.mem_of_mem_take hx)
  | school =>
    simp only [sectionView, assembleInsights] at hx
    exact (List.perm_insertionSort rankGe _).mem_iff.mp (List.mem_of_mem_take hx)
  | hospital =>
    simp only [sectionView, assembleInsights] at hx
    exact (List.perm_insertionSort rankGe _).mem_iff.mp (List.mem_of_mem_take hx)
  | pharmacy =>
    simp only [sectionView, assembleInsights] at hx
    exact List.mem_of_mem_take hx
  | subway_station =>
    simp only [sectionView, assembleInsights] at hx
    exact List.mem_of_mem_take hx

/-! ### C9 -/

/-- C9: pharmacies' `top` and subway's `alternatives` are the first five
records in provider arrival order (no ranking), while cafes, malls, parks,
gyms, schools and hospitals are ranked by the Composite Ranker before
truncation. -/
theorem ranked_unranked_asymmetry (client : Client) (address : String)
    (geo : GeoResult)
    (hsucc : geocode_address client.geocode address "tr" = some geo) :
    ∃ r : SuccessReport,
      get_neighborhood_insights client address = .success r ∧
      r.family_life.pharmacies.top =
        (catPlaces client.places_nearby geo.lat geo.lng .pharmacy).take 5 ∧
      r.transport.subway.alternatives =
        (catPlaces client.places_nearby geo.lat geo.lng .subway_station).take 5 ∧
      r.social_life.cafes.top =
        (sortedRev (catPlaces client.places_nearby geo.lat geo.lng .cafe)).take 5 ∧
      r.social_life.shopping_malls.top =
        (sortedRev ((catPlaces client.places_nearby geo.lat geo.lng
            .shopping_mall).filter
          (fun m => decide ("shopping_mall" ∈ m.types)))).take 5 ∧
      r.social_life.parks.top =
        (sortedRev (catPlaces client.places_nearby geo.lat geo.lng .park)).take 5 ∧
      r.social_life.gyms.top =
        (sortedRev (catPlaces client.places_nearby geo.lat geo.lng .gym)).take 5 ∧
      r.family_life.schools.top =
        (sortedRev (catPlaces client.places_nearby geo.lat geo.lng .school)).take 5 ∧
      r.family_life.hospitals.top =
        (sortedRev (catPlaces client.places_nearby geo.lat geo.lng
          .hospital)).take 5 :=
  ⟨_, insights_success client address geo hsucc,
    rfl, rfl, rfl, rfl, rfl, rfl, rfl, rfl⟩

/-! ### C10 -/

/-- C10: a POST whose JSON body carries an empty-string address gets the
same 400 "Address is required" response as a missing address field, and no
geocoder or provider call is made — the check uses falsiness. -/
theorem empty_address_treated_as_missing (api_key : Option String) (k : String)
    (client : Client) (hk : api_key = some k) (hk' : k ≠ "") :
    handler api_key client ⟨"POST", .ok ⟨some ""⟩⟩ =
      (400, .err "Address is required") ∧
    handler_calls api_key client ⟨"POST", .ok ⟨some ""⟩⟩ = 0 ∧
    handler api_key client ⟨"POST", .ok ⟨some ""⟩⟩ =
      handler api_key client ⟨"POST", .ok ⟨none⟩⟩ := by
  subst hk
  refine ⟨?_, ?_, ?_⟩ <;> simp [handler, handler_calls, hk']

/-! ### Concrete demo provider and witnesses -/

/-- A geocoding result used by the witnesses. -/
def demoGeo : GeoResult := ⟨37, -122, "1600 Amphitheatre Pkwy", "google"⟩

/-- A well-behaved demo client: geocoding succeeds, distance-ranked
queries return one place, shopping_mall queries return one true mall and
one false positive (a lodging), and every other proximity query returns
two places, the second of which has no rating and no rating count. -/
def demoClient : Client :=
  { geocode := fun _ _ => .ok [⟨37, -122, "1600 Amphitheatre Pkwy"⟩]
    places_nearby := fun call =>
      if call.rank_by = some "distance" then
        .ok ⟨[⟨some "Nearest One", some 4, some 10, some ["poi"]⟩], none⟩
      else if call.ptype = "shopping_mall" then
        .ok ⟨[⟨some "Grand Mall", some 4, some 50, some ["shopping_mall"]⟩,
              ⟨some "Hotel Plaza", some 5, some 80, some ["lodging"]⟩], none⟩
      else
        .ok ⟨[⟨some "Alpha", some 3, some 20, some ["poi"]⟩,
              ⟨some "Beta", none, none, none⟩], none⟩ }

/-- The demo client with the cafe proximity query failing. -/
def demoCafeFail : Client :=
  { geocode := demoClient.geocode
    places_nearby := fun call =>
      if call.ptype = "cafe" ∧ call.rank_by = none then .error ()
      else demoClient.places_nearby call }

/-- Witness for C2: failing the cafe proximity query at the demo client. -/
theorem provider_error_isolated_witness :
    ∃ r r' : SuccessReport,
      get_neighborhood_insights demoClient "1600 Amphitheatre Parkway" =
        .success r ∧
      get_neighborhood_insights demoCafeFail "1600 Amphitheatre Parkway" =
        .success r' ∧
      (sectionView r' .cafe).1 = 0 ∧
      (sectionView r' .cafe).2.1 = [] ∧
      ∀ c' : Cat, c' ≠ .cafe → sectionView r' c' = sectionView r c' :=
  provider_error_isolated_to_category .cafe demoClient demoCafeFail
    "1600 Amphitheatre Parkway" demoGeo rfl rfl
    (fun call h => by
      have h' : ¬(call.ptype = "cafe" ∧ call.rank_by = none) := h
      show demoClient.places_nearby call =
        if call.ptype = "cafe" ∧ call.rank_by = none then .error ()
        else demoClient.places_nearby call
      rw [if_neg h'])
    (fun call h1 h2 => by
      have h1' : call.ptype = "cafe" := h1
      show (if call.ptype = "cafe" ∧ call.rank_by = none then .error ()
        else demoClient.places_nearby call) = .error ()
      rw [if_pos ⟨h1', h2⟩])

/-- Witness for C5 at the demo client (whose mall query returns one true
mall and one false positive). -/
theorem shopping_mall_tag_filter_witness :
    ∃ r : SuccessReport,
      get_neighborhood_insights demoClient "1600 Amphitheatre Parkway" =
        .success r ∧
      r.social_life.shopping_malls.count =
        ((catPlaces demoClient.places_nearby demoGeo.lat demoGeo.lng
            .shopping_mall).filter
          (fun m => decide ("shopping_mall" ∈ m.types))).length ∧
      r.social_life.shopping_malls.top =
        (sortedRev ((catPlaces demoClient.places_nearby demoGeo.lat demoGeo.lng
            .shopping_mall).filter
          (fun m => decide ("shopping_mall" ∈ m.types)))).take 5 ∧
      ∀ m ∈ r.social_life.shopping_malls.top, "shopping_mall" ∈ m.types :=
  shopping_mall_tag_filter demoClient "1600 Amphitheatre Parkway" demoGeo rfl

/-- Witness for C6 at the demo client. -/
theorem count_is_pre_truncation_size_witness :
    ∃ r : SuccessReport,
      get_neighborhood_insights demoClient "1600 Amphitheatre Parkway" =
        .success r ∧
      (r.social_life.cafes.count =
          (catPlaces demoClient.places_nearby demoGeo.lat demoGeo.lng
            .cafe).length ∧
        r.social_life.cafes.top.length ≤ 5) ∧
      (r.social_life.shopping_malls.count =
          ((catPlaces demoClient.places_nearby demoGeo.lat demoGeo.lng
              .shopping_mall).filter
            (fun m => decide ("shopping_mall" ∈ m.types))).length ∧
        r.social_life.shopping_malls.top.length ≤ 5) ∧
      (r.social_life.parks.count =
          (catPlaces demoClient.places_nearby demoGeo.lat demoGeo.lng
            .park).length ∧
        r.social_life.parks.top.length ≤ 5) ∧
      (r.social_life.gyms.count =
          (catPlaces demoClient.places_nearby demoGeo.lat demoGeo.lng
            .gym).length ∧
        r.social_life.gyms.top.length ≤ 5) ∧
      (r.family_life.schools.count =
          (catPlaces demoClient.places_nearby demoGeo.lat demoGeo.lng
            .school).length ∧
        r.family_life.schools.top.length ≤ 5) ∧
      (r.family_life.hospitals.count =
          (catPlaces demoClient.places_nearby demoGeo.lat demoGeo.lng
            .hospital).length ∧
        r.family_life.hospitals.top.length ≤ 5) ∧
      (r.family_life.pharmacies.count =
          (catPlaces demoClient.places_nearby demoGeo.lat demoGeo.lng
            .pharmacy).length ∧
        r.family_life.pharmacies.top.length ≤ 5) ∧
      (r.transport.subway.count =
          (catPlaces demoClient.places_nearby demoGeo.lat demoGeo.lng
            .subway_station).length ∧
        r.transport.subway.alternatives.length ≤ 5) :=
  count_is_pre_truncation_size demoClient "1600 Amphitheatre Parkway" demoGeo rfl

/-- Witness for the amended C7 at the demo client. -/
theorem nearest_field_is_name_witness :
    ∃ r : SuccessReport,
      get_neighborhood_insights demoClient "1600 Amphitheatre Parkway" =
        .success r ∧
      r.family_life.hospitals.nearest =
        (find_nearest_place demoClient.places_nearby demoGeo.lat demoGeo.lng
          "hospital").bind (·.name) ∧
      r.transport.subway.nearest =
        (find_nearest_place demoClient.places_nearby demoGeo.lat demoGeo.lng
          "subway_station").bind (·.name) :=
  nearest_field_is_name demoClient "1600 Amphitheatre Parkway" demoGeo rfl

/-- Witness for C8 at the demo client's cafes section (whose second cafe
has no rating and no rating count). -/
theorem absent_rating_reported_absent_witness :
    ∃ r : SuccessReport,
      get_neighborhood_insights demoClient "1600 Amphitheatre Parkway" =
        .success r ∧
      ∀ x ∈ (sectionView r .cafe).2.1,
        (∃ p ∈ fpn_raw demoClient.places_nearby demoGeo.lat demoGeo.lng
            (Cat.cafe).ptype (Cat.cafe).radius 2,
          x = normalizePlace p ∧ x.rating = p.rating ∧
          x.user_ratings_total = p.user_ratings_total) ∧
        safe_sort_key x = (x.rating.getD 0, x.user_ratings_total.getD 0) :=
  absent_rating_reported_absent demoClient "1600 Amphitheatre Parkway" demoGeo
    .cafe rfl

/-- Witness for C9 at the demo client. -/
theorem ranked_unranked_asymmetry_witness :
    ∃ r : SuccessReport,
      get_neighborhood_insights demoClient "1600 Amphitheatre Parkway" =
        .success r ∧
      r.family_life.pharmacies.top =
        (catPlaces demoClient.places_nearby demoGeo.lat demoGeo.lng
          .pharmacy).take 5 ∧
      r.transport.subway.alternatives =
        (catPlaces demoClient.places_nearby demoGeo.lat demoGeo.lng
          .subway_station).take 5 ∧
      r.social_life.cafes.top =
        (sortedRev (catPlaces demoClient.places_nearby demoGeo.lat demoGeo.lng
          .cafe)).take 5 ∧
      r.social_life.shopping_malls.top =
        (sortedRev ((catPlaces demoClient.places_nearby demoGeo.lat demoGeo.lng
            .shopping_mall).filter
          (fun m => decide ("shopping_mall" ∈ m.types)))).take 5 ∧
      r.social_life.parks.top =
        (sortedRev (catPlaces demoClient.places_nearby demoGeo.lat demoGeo.lng
          .park)).take 5 ∧
      r.social_life.gyms.top =
        (sortedRev (catPlaces demoClient.places_nearby demoGeo.lat demoGeo.lng
          .gym)).take 5 ∧
      r.family_life.schools.top =
        (sortedRev (catPlaces demoClient.places_nearby demoGeo.lat demoGeo.lng
          .school)).take 5 ∧
      r.family_life.hospitals.top =
        (sortedRev (catPlaces demoClient.places_nearby demoGeo.lat demoGeo.lng
          .hospital)).take 5 :=
  ranked_unranked_asymmetry demoClient "1600 Amphitheatre Parkway" demoGeo rfl

/-- Witness for C10 with a set API key and an empty-string address. -/
theorem empty_address_treated_as_missing_witness :
    handler (some "key") clientGeoEmpty ⟨"POST", .ok ⟨some ""⟩⟩ =
      (400, .err "Address is required") ∧
    handler_calls (some "key") clientGeoEmpty ⟨"POST", .ok ⟨some ""⟩⟩ = 0 ∧
    handler (some "key") clientGeoEmpty ⟨"POST", .ok ⟨some ""⟩⟩ =
      handler (some "key") clientGeoEmpty ⟨"POST", .ok ⟨none⟩⟩ :=
  empty_address_treated_as_missing (some "key") "key" clientGeoEmpty rfl
    (by decide)
